import Mathlib

/-!
# Verification of the elder-complaint voice-bot backend

A shallow embedding of the backend of the complaint-intake service:
the rule-based text classifier (`backend/services/nlp_service.py`),
the persistence layer (`backend/database.py`) and the HTTP handlers
(`backend/app.py`), together with proofs of the specified properties.

Python strings are modelled as `List Char` (Python indexes and measures
strings by code points, exactly as `List Char` does).  Python's
`str.strip` / `str.rstrip` are modelled over the ASCII whitespace
characters, and `str.lower` as the per-character ASCII case fold
(`Char.toLower`); every keyword in the classifier's tables is Hangul
text, on which both the modelled and the real functions are the
identity.  Timestamps drawn from `datetime.utcnow()` are modelled by a
strictly increasing logical clock carried in the database state: the
real wall-clock readings taken by successive inserts are non-decreasing,
and the logical clock additionally resolves ties by insertion order.
-/

namespace ElderBot

/-- Python strings, as lists of code points. -/
abbrev Str := List Char

/-- Turn a Lean string literal into the `List Char` model. -/
def str (s : String) : Str := s.toList

/-! ## nlp_service.py : keyword tables -/

/-- `EMERGENCY_KEYWORDS` from `nlp_service.py`. -/
def EMERGENCY_KEYWORDS : List Str :=
  [str "쓰러", str "화재", str "불이", str "폭발", str "위험",
   str "위독", str "사고", str "피가", str "폭행"]

/-- `FACILITY_KEYWORDS` from `nlp_service.py`. -/
def FACILITY_KEYWORDS : List Str :=
  [str "가로등", str "도로", str "보도", str "나무", str "쓰러져",
   str "전선", str "쓰레기", str "시설", str "건물"]

/-- `PENSION_KEYWORDS` from `nlp_service.py`. -/
def PENSION_KEYWORDS : List Str :=
  [str "연금", str "국민연금", str "기초연금", str "수급", str "복지"]

/-- `MENTAL_KEYWORDS` from `nlp_service.py`. -/
def MENTAL_KEYWORDS : List Str :=
  [str "우울", str "불안", str "상담", str "심리", str "괴로",
   str "힘들", str "죽고 싶"]

/-! ## Python string primitives -/

/-- The whitespace characters stripped by Python's `str.strip()`
(ASCII whitespace: space, tab, newline, carriage return, vertical tab,
form feed). -/
def pyIsSpace (c : Char) : Bool :=
  c == ' ' || c == '\t' || c == '\n' || c == '\r' ||
    c == Char.ofNat 11 || c == Char.ofNat 12

/-- Python `s.lstrip()`. -/
def pyLStrip (s : Str) : Str := s.dropWhile pyIsSpace

/-- Python `s.rstrip()`. -/
def pyRStrip (s : Str) : Str := (s.reverse.dropWhile pyIsSpace).reverse

/-- Python `s.strip()`. -/
def pyStrip (s : Str) : Str := pyRStrip (pyLStrip s)

/-- Python's substring test `needle in hay`. -/
def pyIn (needle : Str) : Str → Bool
  | [] => needle.isEmpty
  | a :: t => needle.isPrefixOf (a :: t) || pyIn needle t

/-- Python `s.lower()`, modelled as the per-character ASCII case fold;
identity on the Hangul script used by every keyword table. -/
def pyLower (s : Str) : Str := s.map Char.toLower

/-! ## nlp_service.py : classifier -/

/-- The `AnalysisResult` dataclass of `nlp_service.py`. -/
structure AnalysisResult where
  summary_text : Str
  category : Str
  severity : Str
  handling_type : Str
  handling_desc : Str
deriving Repr, DecidableEq

/-- The horizontal-ellipsis character appended by `summarize`. -/
def hellip : Char := '…'

/-- `summarize` from `nlp_service.py`: strip, return verbatim when at
most 50 characters, else hard-cut at 120 characters, rstrip, append an
ellipsis. -/
def summarize (raw_text : Str) : Str :=
  let t := pyStrip raw_text
  if t.length ≤ 50 then t
  else pyRStrip (t.take 120) ++ [hellip]

/-- `detect_category` from `nlp_service.py`.  The source computes
`lowered = raw_text.lower()` but never uses it: the keyword tests run on
the raw text. -/
def detect_category (raw_text : Str) : Str :=
  let _lowered := pyLower raw_text
  if MENTAL_KEYWORDS.any (fun k => pyIn k raw_text) then str "MENTAL_HEALTH"
  else if PENSION_KEYWORDS.any (fun k => pyIn k raw_text) then str "PENSION"
  else if FACILITY_KEYWORDS.any (fun k => pyIn k raw_text) then str "FACILITY"
  else str "OTHER"

/-- `detect_severity` from `nlp_service.py`. -/
def detect_severity (raw_text : Str) (category : Str) : Str :=
  let normalized := pyLower raw_text
  if EMERGENCY_KEYWORDS.any (fun k => pyIn k normalized) then str "EMERGENCY"
  else if category = str "MENTAL_HEALTH" ∧ pyIn (str "힘들") normalized then
    str "NORMAL"
  else if raw_text.length > 0 then str "NORMAL" else str "LOW"

/-- `decide_handling` from `nlp_service.py`: the fixed
`(category, severity)` lookup table returning
`(handling_type, handling_desc)`. -/
def decide_handling (category severity : Str) : Str × Str :=
  if category = str "FACILITY" then
    if severity = str "EMERGENCY" then
      (str "ON_SITE_VISIT",
       str "담당자가 현장을 방문하여 쓰러진 나무나 위험 요소를 즉시 확인합니다.")
    else
      (str "ON_SITE_VISIT",
       str "시설 담당자가 현장을 확인하고 필요한 조치를 진행합니다.")
  else if category = str "PENSION" then
    (str "INFO_GUIDE",
     str "국민연금이나 복지 안내를 확인한 뒤 필요한 정보를 안내드립니다.")
  else if category = str "MENTAL_HEALTH" then
    if severity = str "EMERGENCY" then
      (str "COUNSELOR_CONNECT",
       str "위기 징후가 감지되어 전문 상담 연결을 도와드립니다.")
    else
      (str "LISTENING_SUPPORT",
       str "상담사를 연결하거나 가까운 지원 기관 연락처를 안내드립니다.")
  else
    (str "INFO_GUIDE",
     str "민원 내용을 담당자에게 전달하고 추가 안내를 제공합니다.")

/-- `analyze_text` from `nlp_service.py`. -/
def analyze_text (raw_text : Str) : AnalysisResult :=
  let category := detect_category raw_text
  let severity := detect_severity raw_text category
  let handling := decide_handling category severity
  { summary_text := summarize raw_text
    category := category
    severity := severity
    handling_type := handling.1
    handling_desc := handling.2 }

/-- A single-quote character, used by `format_user_message`. -/
def sq : Str := [Char.ofNat 39]

/-- `format_user_message` from `nlp_service.py`. -/
def format_user_message (result : AnalysisResult) : Str :=
  str "말씀해 주신 내용은 " ++ sq ++ result.summary_text ++ sq ++
    str "로 정리되었어요. 카테고리: " ++ result.category ++
    str ", 긴급도: " ++ result.severity ++
    str " 기준으로 처리 유형 " ++ sq ++ result.handling_type ++ sq ++
    str "을 안내합니다."

/-! ## database.py : tables and operations

The SQLite tables become lists of rows; `AUTOINCREMENT` ids become list
positions; `datetime.utcnow()` becomes the state's logical clock, which
every insert or update reads and then advances.  SQLite runs with
foreign-key enforcement off (the source never issues
`PRAGMA foreign_keys`), so inserts referencing unknown sessions succeed,
exactly as the lists do. -/

/-- A row of the `conversation_session` table. -/
structure SessionRow where
  session_uuid : Str
  started_at : Nat
  ended_at : Option Nat
  debug_mode : Bool
  status : Str
deriving Repr, DecidableEq

/-- A row of the `complaint` table. -/
structure ComplaintRow where
  session_uuid : Str
  raw_text : Str
  summary_text : Str
  category : Str
  severity : Str
  handling_type : Str
  handling_desc : Option Str
  is_confirmed : Bool
  created_at : Nat
deriving Repr, DecidableEq

/-- The structured payload attached to a log entry, one shape per
pipeline stage (`json.dumps` of the dict built at each call site of
`insert_log` in `app.py`). -/
inductive LogPayload where
  | debugMode (debug_mode : Bool)
  | sttResult (raw_text : Str) (size : Nat)
  | analysis (result : AnalysisResult)
  | confirmation (is_confirmed : Bool)
  | dbSave (complaint_id : Nat)
deriving Repr, DecidableEq

/-- A row of the `log_entry` table. -/
structure LogRow where
  session_uuid : Str
  step : Str
  level : Str
  message : Str
  payload : Option LogPayload
  created_at : Nat
deriving Repr, DecidableEq

/-- The persistent state behind `database.py`: the three tables touched
by the endpoints, plus the logical clock standing for `utcnow()`. -/
structure DbState where
  sessions : List SessionRow
  complaints : List ComplaintRow
  logs : List LogRow
  clock : Nat
deriving Repr, DecidableEq

/-- The state of a freshly initialised database (`init_db`). -/
def initState : DbState := { sessions := [], complaints := [], logs := [], clock := 0 }

/-- `create_session` from `database.py`: insert an `IN_PROGRESS` row
with `ended_at` NULL. -/
def create_session (st : DbState) (session_uuid : Str) (debug_mode : Bool) : DbState :=
  { st with
    sessions := st.sessions ++
      [{ session_uuid := session_uuid
         started_at := st.clock
         ended_at := none
         debug_mode := debug_mode
         status := str "IN_PROGRESS" }]
    clock := st.clock + 1 }

/-- `update_session_status` from `database.py`: a SQL `UPDATE` setting
`status` and `ended_at` on every row whose `session_uuid` matches; a
non-matching identifier updates zero rows and reports no error. -/
def update_session_status (st : DbState) (session_uuid status : Str) : DbState :=
  { st with
    sessions := st.sessions.map fun r =>
      if r.session_uuid = session_uuid then
        { r with status := status, ended_at := some st.clock }
      else r
    clock := st.clock + 1 }

/-- The dict handed to `insert_complaint` by `finalize_conversation`
(`{"session_uuid": ..., **payload.model_dump()}`).  `is_confirmed` is
optional because the Python dict lookup uses
`data.get("is_confirmed", False)`. -/
structure ComplaintData where
  session_uuid : Str
  raw_text : Str
  summary_text : Str
  category : Str
  severity : Str
  handling_type : Str
  handling_desc : Option Str
  is_confirmed : Option Bool
deriving Repr, DecidableEq

/-- `insert_complaint` from `database.py`: insert the row and return
`lastrowid` (ids are assigned 1, 2, ... in insertion order). -/
def insert_complaint (st : DbState) (data : ComplaintData) : DbState × Nat :=
  ({ st with
     complaints := st.complaints ++
       [{ session_uuid := data.session_uuid
          raw_text := data.raw_text
          summary_text := data.summary_text
          category := data.category
          severity := data.severity
          handling_type := data.handling_type
          handling_desc := data.handling_desc
          is_confirmed := data.is_confirmed.getD false
          created_at := st.clock }]
     clock := st.clock + 1 },
   st.complaints.length + 1)

/-- `insert_log` from `database.py`: append one log row stamped with the
current clock. -/
def insert_log (st : DbState) (session_uuid step level message : Str)
    (payload : Option LogPayload) : DbState :=
  { st with
    logs := st.logs ++
      [{ session_uuid := session_uuid
         step := step
         level := level
         message := message
         payload := payload
         created_at := st.clock }]
    clock := st.clock + 1 }

/-- The comparison used by `fetch_logs`' `ORDER BY created_at ASC`. -/
def logLe (a b : LogRow) : Prop := a.created_at ≤ b.created_at

instance : DecidableRel logLe := fun a b => Nat.decLe a.created_at b.created_at

instance : IsTotal LogRow logLe := ⟨fun a b => Nat.le_total a.created_at b.created_at⟩

instance : IsTrans LogRow logLe := ⟨fun _ _ _ h h' => Nat.le_trans h h'⟩

/-- `fetch_logs` from `database.py`.  The Python guard is
`if session_uuid:` — truthiness — so both `None` and the empty string
skip the `WHERE` clause and return every session's entries. -/
def fetch_logs (st : DbState) (session_uuid : Option Str) : List LogRow :=
  let rows :=
    match session_uuid with
    | some sid => if sid.isEmpty then st.logs
                  else st.logs.filter fun r => r.session_uuid == sid
    | none => st.logs
  rows.insertionSort logLe

/-! ## schemas.py and app.py : wire types and handlers -/

/-- `ApiError` from `schemas.py`. -/
structure ApiError where
  code : Str
  message : Str
deriving Repr, DecidableEq

/-- `ApiResponse[T]` from `schemas.py`. -/
structure ApiResponse (T : Type) where
  success : Bool
  data : Option T
  error : Option ApiError
deriving Repr, DecidableEq

/-- The `ok(data)` helper of `app.py`. -/
def ok {T : Type} (data : T) : ApiResponse T :=
  { success := true, data := some data, error := none }

/-- The `fail(code, message)` helper of `app.py`. -/
def fail {T : Type} (code message : Str) : ApiResponse T :=
  { success := false, data := none,
    error := some { code := code, message := message } }

/-- `StartResponse` from `schemas.py`. -/
structure StartResponse where
  session_uuid : Str
  status : Str
deriving Repr, DecidableEq

/-- `ConfirmResponse` from `schemas.py`. -/
structure ConfirmResponse where
  next_step : Str
deriving Repr, DecidableEq

/-- `FinalizeRequest` from `schemas.py` after pydantic validation. -/
structure FinalizeRequest where
  raw_text : Str
  summary_text : Str
  category : Str
  severity : Str
  handling_type : Str
  handling_desc : Option Str
  is_confirmed : Bool
deriving Repr, DecidableEq

/-- Pydantic parsing of a `FinalizeRequest` body: `handling_desc`
defaults to `None` and `is_confirmed` defaults to `True` when the field
is absent from the request. -/
def FinalizeRequest.ofWire (raw_text summary_text category severity handling_type : Str)
    (handling_desc : Option Str) (is_confirmed : Option Bool) : FinalizeRequest :=
  { raw_text := raw_text
    summary_text := summary_text
    category := category
    severity := severity
    handling_type := handling_type
    handling_desc := handling_desc
    is_confirmed := is_confirmed.getD true }

/-- `FinalizeResponse` from `schemas.py`. -/
structure FinalizeResponse where
  user_message : Str
  redirect : Str
deriving Repr, DecidableEq

/-- The `start_conversation` handler of `app.py`; `fresh_uuid` stands
for the `uuid.uuid4()` draw. -/
def start_conversation (st : DbState) (fresh_uuid : Str) (debug_mode : Bool) :
    DbState × ApiResponse StartResponse :=
  let st1 := create_session st fresh_uuid debug_mode
  let st2 := insert_log st1 fresh_uuid (str "SESSION") (str "INFO")
    (str "새로운 세션이 생성되었습니다.") (some (LogPayload.debugMode debug_mode))
  (st2, ok { session_uuid := fresh_uuid, status := str "IN_PROGRESS" })

/-- The `stt_conversation` handler of `app.py`; `raw_text` stands for
the transcription returned by the external provider and `size` for the
uploaded byte count. -/
def stt_conversation (st : DbState) (session_uuid : Str) (raw_text : Str) (size : Nat) :
    DbState × ApiResponse Str :=
  let st1 := insert_log st session_uuid (str "STT") (str "INFO")
    (str "음성 인식이 완료되었습니다.") (some (LogPayload.sttResult raw_text size))
  (st1, ok raw_text)

/-- The `analyze_conversation` handler of `app.py`: empty text is
rejected with `INVALID_TEXT` before any analysis or logging; non-empty
text is classified and the result logged and returned. -/
def analyze_conversation (st : DbState) (session_uuid : Str) (raw_text : Str) :
    DbState × ApiResponse AnalysisResult :=
  if raw_text.isEmpty then
    (st, fail (str "INVALID_TEXT") (str "분석할 텍스트가 없습니다."))
  else
    let result := analyze_text raw_text
    let st1 := insert_log st session_uuid (str "ANALYZE") (str "INFO")
      (str "요약 및 분류가 완료되었습니다.") (some (LogPayload.analysis result))
    (st1, ok result)

/-- The `confirm_conversation` handler of `app.py`. -/
def confirm_conversation (st : DbState) (session_uuid : Str) (is_confirmed : Bool) :
    DbState × ApiResponse ConfirmResponse :=
  let st1 := insert_log st session_uuid (str "CONFIRM") (str "INFO")
    (str "사용자 확인 결과") (some (LogPayload.confirmation is_confirmed))
  (st1, ok { next_step := if is_confirmed then str "SAVE_AND_NOTIFY" else str "RETRY" })

/-- The `finalize_conversation` handler of `app.py`: unconditionally
insert a complaint, mark the session `COMPLETED`, log the save and
return the user message. -/
def finalize_conversation (st : DbState) (session_uuid : Str) (payload : FinalizeRequest) :
    DbState × ApiResponse FinalizeResponse :=
  let ins := insert_complaint st
    { session_uuid := session_uuid
      raw_text := payload.raw_text
      summary_text := payload.summary_text
      category := payload.category
      severity := payload.severity
      handling_type := payload.handling_type
      handling_desc := payload.handling_desc
      is_confirmed := some payload.is_confirmed }
  let st2 := update_session_status ins.1 session_uuid (str "COMPLETED")
  let st3 := insert_log st2 session_uuid (str "DB_SAVE") (str "INFO")
    (str "민원이 저장되었습니다.") (some (LogPayload.dbSave ins.2))
  let user_message := format_user_message
    { summary_text := payload.summary_text
      category := payload.category
      severity := payload.severity
      handling_type := payload.handling_type
      handling_desc := payload.handling_desc.getD [] }
  (st3, ok { user_message := user_message, redirect := str "MAIN" })

/-- The `list_logs` handler of `app.py`. -/
def list_logs (st : DbState) (session_uuid : Option Str) :
    DbState × ApiResponse (List LogRow) :=
  (st, ok (fetch_logs st session_uuid))

/-! ## Endpoint-level operations

One constructor per state-mutating HTTP handler, so that invariants can
be proved over every reachable database state. -/

/-- One invocation of a state-mutating endpoint. -/
inductive Op where
  | start (fresh_uuid : Str) (debug_mode : Bool)
  | stt (session_uuid : Str) (raw_text : Str) (size : Nat)
  | analyze (session_uuid : Str) (raw_text : Str)
  | confirm (session_uuid : Str) (is_confirmed : Bool)
  | finalize (session_uuid : Str) (payload : FinalizeRequest)
deriving Repr, DecidableEq

/-- Run one endpoint invocation against the state. -/
def applyOp (st : DbState) : Op → DbState
  | Op.start u d => (start_conversation st u d).1
  | Op.stt u t n => (stt_conversation st u t n).1
  | Op.analyze u t => (analyze_conversation st u t).1
  | Op.confirm u b => (confirm_conversation st u b).1
  | Op.finalize u p => (finalize_conversation st u p).1

/-- Run a sequence of endpoint invocations from a given state. -/
def runOps (st : DbState) : List Op → DbState
  | [] => st
  | op :: rest => runOps (applyOp st op) rest

/-! ## Helper lemmas -/

/-- Python's `in` test agrees with list-infix containment. -/
theorem pyIn_iff (needle : Str) : ∀ hay : Str, pyIn needle hay = true ↔ needle <:+: hay := by
  intro hay
  induction hay with
  | nil =>
      simp [pyIn, List.isEmpty_iff]
  | cons a t ih =>
      simp [pyIn, Bool.or_eq_true, List.isPrefixOf_iff_prefix, ih,
        List.infix_cons_iff]

/-- `rstrip` never lengthens a string. -/
theorem pyRStrip_length_le (s : Str) : (pyRStrip s).length ≤ s.length := by
  unfold pyRStrip
  rw [List.length_reverse]
  calc (s.reverse.dropWhile pyIsSpace).length
      ≤ s.reverse.length := (List.dropWhile_sublist _).length_le
    _ = s.length := List.length_reverse s

/-- `matchesSet ks s` holds when some keyword of `ks` occurs in `s` as a
substring: the spec's reading of one keyword-table test. -/
def matchesSet (ks : List Str) (s : Str) : Prop := ∃ k ∈ ks, k <:+: s

instance (ks : List Str) (s : Str) : Decidable (matchesSet ks s) :=
  List.decidableBEx _ ks

/-- A keyword-table test in the source is the spec's substring match. -/
theorem any_pyIn_iff_matchesSet (ks : List Str) (s : Str) :
    (ks.any fun k => pyIn k s) = matchesSet ks s := by
  simp [List.any_eq_true, pyIn_iff, matchesSet]

/-! ## Claim theorems: the classifier -/

/-- C1: `decide_handling` realises the fixed `(category, severity)`
lookup table: `FACILITY` always maps to `ON_SITE_VISIT`, with a distinct
emergency-specific description when the severity is `EMERGENCY`;
`PENSION` maps to `INFO_GUIDE` with the welfare-guidance description;
`MENTAL_HEALTH` maps to `COUNSELOR_CONNECT` on `EMERGENCY` and to
`LISTENING_SUPPORT` otherwise; every other category maps to `INFO_GUIDE`
with the generic forwarding description; and the returned description is
non-empty in every branch. -/
theorem decide_handling_table (category severity : Str) :
    (category = str "FACILITY" →
      decide_handling category severity =
        (str "ON_SITE_VISIT",
         if severity = str "EMERGENCY" then
           str "담당자가 현장을 방문하여 쓰러진 나무나 위험 요소를 즉시 확인합니다."
         else str "시설 담당자가 현장을 확인하고 필요한 조치를 진행합니다.")) ∧
    (str "담당자가 현장을 방문하여 쓰러진 나무나 위험 요소를 즉시 확인합니다." ≠
       str "시설 담당자가 현장을 확인하고 필요한 조치를 진행합니다.") ∧
    (category = str "PENSION" →
      decide_handling category severity =
        (str "INFO_GUIDE",
         str "국민연금이나 복지 안내를 확인한 뒤 필요한 정보를 안내드립니다.")) ∧
    (category = str "MENTAL_HEALTH" →
      decide_handling category severity =
        (if severity = str "EMERGENCY" then
          (str "COUNSELOR_CONNECT",
           str "위기 징후가 감지되어 전문 상담 연결을 도와드립니다.")
         else
          (str "LISTENING_SUPPORT",
           str "상담사를 연결하거나 가까운 지원 기관 연락처를 안내드립니다."))) ∧
    (category ≠ str "FACILITY" → category ≠ str "PENSION" →
      category ≠ str "MENTAL_HEALTH" →
      decide_handling category severity =
        (str "INFO_GUIDE",
         str "민원 내용을 담당자에게 전달하고 추가 안내를 제공합니다.")) ∧
    (decide_handling category severity).2 ≠ [] := by
  refine ⟨?_, by decide, ?_, ?_, ?_, ?_⟩
  · intro h
    simp only [decide_handling, if_pos h]
    split_ifs <;> rfl
  · intro h
    have hf : category ≠ str "FACILITY" := by rw [h]; decide
    simp only [decide_handling, if_neg hf, if_pos h]
  · intro h
    have hf : category ≠ str "FACILITY" := by rw [h]; decide
    have hp : category ≠ str "PENSION" := by rw [h]; decide
    simp only [decide_handling, if_neg hf, if_neg hp, if_pos h]
  · intro hf hp hm
    simp only [decide_handling, if_neg hf, if_neg hp, if_neg hm]
  · unfold decide_handling
    split_ifs <;> decide

/-- Closed instance of `decide_handling_table` at a concrete pair. -/
theorem decide_handling_table_witness :
    decide_handling (str "FACILITY") (str "NORMAL") =
      (str "ON_SITE_VISIT",
       str "시설 담당자가 현장을 확인하고 필요한 조치를 진행합니다.") := by
  have h := (decide_handling_table (str "FACILITY") (str "NORMAL")).1 rfl
  rw [h, if_neg (by decide)]

/-- C2: `detect_category` tests the keyword sets by substring
containment in the fixed priority order mental-health, then
pension/welfare, then facility/infrastructure, and returns the category
of the first matching set, else `OTHER`; a text matching several sets is
classified by this priority order. -/
theorem detect_category_priority (s : Str) :
    detect_category s =
      if matchesSet MENTAL_KEYWORDS s then str "MENTAL_HEALTH"
      else if matchesSet PENSION_KEYWORDS s then str "PENSION"
      else if matchesSet FACILITY_KEYWORDS s then str "FACILITY"
      else str "OTHER" := by
  simp only [detect_category, any_pyIn_iff_matchesSet]

/-- C3: any text containing an emergency keyword as a substring is
analysed with severity `EMERGENCY`, whatever category was detected. -/
theorem analyze_text_emergency (s k : Str) (hk : k ∈ EMERGENCY_KEYWORDS)
    (hs : k <:+: s) : (analyze_text s).severity = str "EMERGENCY" := by
  have hlow : k.map Char.toLower = k := by fin_cases hk <;> decide
  have hinf : k <:+: pyLower s := by
    have h := List.IsInfix.map Char.toLower hs
    rwa [hlow] at h
  have hany : (EMERGENCY_KEYWORDS.any fun kk => pyIn kk (pyLower s)) = true := by
    simp only [List.any_eq_true]
    exact ⟨k, hk, (pyIn_iff k (pyLower s)).mpr hinf⟩
  simp [analyze_text, detect_severity, hany]

/-- Closed instance of `analyze_text_emergency`: the keyword `위험`
inside a facility complaint forces `EMERGENCY`. -/
theorem analyze_text_emergency_witness :
    (analyze_text (str "가로등이 쓰러져 있어서 위험해요")).severity = str "EMERGENCY" :=
  analyze_text_emergency (str "가로등이 쓰러져 있어서 위험해요") (str "위험")
    (by decide) (by decide)

/-- C4: `summarize` returns the trimmed text verbatim when its length is
at most 50 characters, and otherwise hard-cuts the trimmed text at 120
characters, strips trailing whitespace and appends the ellipsis. -/
theorem summarize_spec (s : Str) :
    ((pyStrip s).length ≤ 50 → summarize s = pyStrip s) ∧
    (50 < (pyStrip s).length →
      summarize s = pyRStrip ((pyStrip s).take 120) ++ [hellip]) := by
  constructor
  · intro h
    simp [summarize, h]
  · intro h
    simp [summarize, Nat.not_le.mpr h]

/-- Closed instance of `summarize_spec` on a short input. -/
theorem summarize_spec_witness :
    (pyStrip (str "  안녕하세요  ")).length ≤ 50 ∧
    summarize (str "  안녕하세요  ") = pyStrip (str "  안녕하세요  ") :=
  ⟨by decide, (summarize_spec (str "  안녕하세요  ")).1 (by decide)⟩

/-- A 51-character input whose trimmed form has only 50 characters. -/
def c5input : Str := List.replicate 50 'a' ++ [' ']

/-- C5 counterexample: an input of raw length 51 whose summary does not
end with the ellipsis marker, because `summarize` branches on the
trimmed length (50 here), not the raw length. -/
theorem summarize_raw_length_counterexample :
    50 < c5input.length ∧ (summarize c5input).getLast? = some 'a' ∧
      ('a' : Char) ≠ hellip := by
  refine ⟨by decide, ?_, by decide⟩
  decide

/-- C5 (amended): for every input whose trimmed length exceeds 50, the
summary ends with the ellipsis marker and the portion before the marker
has length at most 120. -/
theorem summarize_long_truncates (s : Str) (h : 50 < (pyStrip s).length) :
    ∃ t : Str, summarize s = t ++ [hellip] ∧ t.length ≤ 120 := by
  refine ⟨pyRStrip ((pyStrip s).take 120), ?_, ?_⟩
  · simp [summarize, Nat.not_le.mpr h]
  · calc (pyRStrip ((pyStrip s).take 120)).length
        ≤ ((pyStrip s).take 120).length := pyRStrip_length_le _
      _ ≤ 120 := by simp [List.length_take]

/-- Closed instance of `summarize_long_truncates` on 51 letters. -/
theorem summarize_long_truncates_witness :
    50 < (pyStrip (List.replicate 51 'b')).length ∧
    ∃ t : Str, summarize (List.replicate 51 'b') = t ++ [hellip] ∧ t.length ≤ 120 :=
  ⟨by decide, summarize_long_truncates (List.replicate 51 'b') (by decide)⟩

/-! ## State invariants -/

/-- The session invariant claimed by the spec: a row's `ended_at` is set
exactly when its status is the terminal `COMPLETED`. -/
def sessionInvariant (st : DbState) : Prop :=
  ∀ r ∈ st.sessions, (r.ended_at ≠ none ↔ r.status = str "COMPLETED")

/-- Every endpoint preserves the session invariant: new rows start
`IN_PROGRESS` with `ended_at` NULL, and the only update sets both
`COMPLETED` and `ended_at`. -/
theorem applyOp_sessionInvariant (st : DbState) (op : Op)
    (h : sessionInvariant st) : sessionInvariant (applyOp st op) := by
  cases op with
  | start u d =>
      intro r hr
      simp only [applyOp, start_conversation, insert_log, create_session,
        List.mem_append, List.mem_singleton] at hr
      rcases hr with hr | hr
      · exact h r hr
      · subst hr; simp; decide
  | stt u t n =>
      intro r hr
      simp only [applyOp, stt_conversation, insert_log] at hr
      exact h r hr
  | analyze u t =>
      intro r hr
      simp only [applyOp, analyze_conversation] at hr
      split at hr
      · exact h r hr
      · simp only [insert_log] at hr
        exact h r hr
  | confirm u b =>
      intro r hr
      simp only [applyOp, confirm_conversation, insert_log] at hr
      exact h r hr
  | finalize u p =>
      intro r hr
      simp only [applyOp, finalize_conversation, insert_log,
        update_session_status, insert_complaint, List.mem_map] at hr
      rcases hr with ⟨q, hq, rfl⟩
      by_cases hqu : q.session_uuid = u
      · simp [hqu]
      · simp only [if_neg hqu]
        exact h q hq

/-- Log rows carry strictly increasing timestamps, all below `c`. -/
def freshLogs (l : List LogRow) (c : Nat) : Prop :=
  l.Pairwise (fun a b => a.created_at < b.created_at) ∧
  ∀ r ∈ l, r.created_at < c

/-- Appending one row stamped at or after the old clock bound, below the
new bound, keeps the log fresh. -/
theorem freshLogs_append (l : List LogRow) (c : Nat) (row : LogRow) (c' : Nat)
    (h : freshLogs l c) (h1 : c ≤ row.created_at) (h2 : row.created_at < c') :
    freshLogs (l ++ [row]) c' := by
  obtain ⟨hp, hlt⟩ := h
  constructor
  · rw [List.pairwise_append]
    refine ⟨hp, List.pairwise_singleton _ _, ?_⟩
    intro a ha b hb
    rw [List.mem_singleton] at hb
    subst hb
    exact Nat.lt_of_lt_of_le (hlt a ha) h1
  · intro r hr
    rcases List.mem_append.mp hr with hr | hr
    · exact Nat.lt_of_lt_of_le (hlt r hr) (Nat.le_of_lt (Nat.lt_of_le_of_lt h1 h2))
    · rw [List.mem_singleton] at hr
      subst hr
      exact h2

/-- Every endpoint keeps the logs fresh with respect to the clock. -/
theorem applyOp_freshLogs (st : DbState) (op : Op)
    (h : freshLogs st.logs st.clock) :
    freshLogs (applyOp st op).logs (applyOp st op).clock := by
  cases op with
  | start u d =>
      simp only [applyOp, start_conversation, insert_log, create_session]
      exact freshLogs_append st.logs st.clock _ _ h (Nat.le_succ _) (Nat.lt_succ_self _)
  | stt u t n =>
      simp only [applyOp, stt_conversation, insert_log]
      exact freshLogs_append st.logs st.clock _ _ h (Nat.le_refl _) (Nat.lt_succ_self _)
  | analyze u t =>
      simp only [applyOp, analyze_conversation]
      split
      · exact h
      · simp only [insert_log]
        exact freshLogs_append st.logs st.clock _ _ h (Nat.le_refl _) (Nat.lt_succ_self _)
  | confirm u b =>
      simp only [applyOp, confirm_conversation, insert_log]
      exact freshLogs_append st.logs st.clock _ _ h (Nat.le_refl _) (Nat.lt_succ_self _)
  | finalize u p =>
      simp only [applyOp, finalize_conversation, insert_log,
        update_session_status, insert_complaint]
      exact freshLogs_append st.logs st.clock _ _ h
        (Nat.le_add_right _ 2) (Nat.lt_succ_self _)

/-- Freshness over any operation sequence from any fresh start. -/
theorem runOps_freshLogs (ops : List Op) :
    ∀ st : DbState, freshLogs st.logs st.clock →
      freshLogs (runOps st ops).logs (runOps st ops).clock := by
  induction ops with
  | nil => intro st h; exact h
  | cons op rest ih =>
      intro st h
      exact ih (applyOp st op) (applyOp_freshLogs st op h)

/-! ## Claim theorems: endpoints and persistence -/

/-- C6: the analyze endpoint rejects an empty `raw_text` with an
`INVALID_TEXT` error envelope, leaving the state untouched (no analysis
run, no log appended), and on non-empty text appends exactly the
analysis log entry and returns a success envelope carrying the five
analysis fields. -/
theorem analyze_endpoint_spec (st : DbState) (sid raw_text : Str) :
    (raw_text = [] →
      (analyze_conversation st sid raw_text).1 = st ∧
      (analyze_conversation st sid raw_text).2.success = false ∧
      (analyze_conversation st sid raw_text).2.data = none ∧
      ((analyze_conversation st sid raw_text).2.error).map ApiError.code =
        some (str "INVALID_TEXT")) ∧
    (raw_text ≠ [] →
      (analyze_conversation st sid raw_text).1 =
        insert_log st sid (str "ANALYZE") (str "INFO")
          (str "요약 및 분류가 완료되었습니다.")
          (some (LogPayload.analysis (analyze_text raw_text))) ∧
      (analyze_conversation st sid raw_text).2 = ok (analyze_text raw_text)) := by
  constructor
  · intro h
    subst h
    refine ⟨rfl, rfl, rfl, rfl⟩
  · intro h
    have hne : raw_text.isEmpty = false := by
      simpa [List.isEmpty_iff] using h
    simp [analyze_conversation, hne]

/-- Closed instance of `analyze_endpoint_spec` at the empty input. -/
theorem analyze_endpoint_spec_witness :
    (analyze_conversation initState (str "sess") []).2.success = false :=
  ((analyze_endpoint_spec initState (str "sess") []).1 rfl).2.1

/-- A concrete finalize request body. -/
def c7req : FinalizeRequest :=
  FinalizeRequest.ofWire (str "가로등이 위험해요") (str "가로등이 위험해요")
    (str "FACILITY") (str "EMERGENCY") (str "ON_SITE_VISIT") none none

/-- C7 counterexample: on the empty database — so the session identifier
is unknown — the complete transition performed by finalize surfaces no
failure at all: the response is a success envelope with no error. -/
theorem finalize_unknown_counterexample :
    initState.sessions = [] ∧
    (finalize_conversation initState (str "missing") c7req).2.success = true ∧
    (finalize_conversation initState (str "missing") c7req).2.error = none :=
  ⟨rfl, rfl, rfl⟩

/-- C7 (amended): a transition referencing an unknown session identifier
does not fail: the status update matches zero rows and reports nothing,
and finalize still inserts its complaint and returns a success envelope
with no error — no `NOT_FOUND` lookup failure exists in the code. -/
theorem finalize_unknown_session_silent (st : DbState) (sid : Str)
    (req : FinalizeRequest) (h : ∀ r ∈ st.sessions, r.session_uuid ≠ sid) :
    (finalize_conversation st sid req).1.sessions = st.sessions ∧
    (finalize_conversation st sid req).1.complaints.length =
      st.complaints.length + 1 ∧
    (finalize_conversation st sid req).2.success = true ∧
    (finalize_conversation st sid req).2.error = none := by
  refine ⟨?_, ?_, rfl, rfl⟩
  · show (st.sessions.map fun r =>
      if r.session_uuid = sid then
        { r with status := str "COMPLETED", ended_at := some (st.clock + 1) }
      else r) = st.sessions
    rw [List.map_congr_left (fun r hr => if_neg (h r hr))]
    exact List.map_id st.sessions
  · show (st.complaints ++ [_]).length = st.complaints.length + 1
    rw [List.length_append]
    rfl

/-- Closed instance of `finalize_unknown_session_silent` on the empty
database. -/
theorem finalize_unknown_session_silent_witness :
    (finalize_conversation initState (str "ghost") c7req).1.sessions = [] ∧
    (finalize_conversation initState (str "ghost") c7req).2.success = true :=
  ⟨(finalize_unknown_session_silent initState (str "ghost") c7req
      (by intro r hr; simp [initState] at hr)).1,
   (finalize_unknown_session_silent initState (str "ghost") c7req
      (by intro r hr; simp [initState] at hr)).2.2.1⟩

/-- C8: after any sequence of endpoint invocations from a fresh
database, every session row has `ended_at` set exactly when its status
is the terminal `COMPLETED`: `ended_at` is NULL from creation until the
complete transition (`update_session_status` to `COMPLETED`, performed
by finalize) touches the row, and non-NULL afterwards. -/
theorem ended_at_iff_completed (ops : List Op) :
    sessionInvariant (runOps initState ops) := by
  have hstep : ∀ l : List Op, ∀ st : DbState, sessionInvariant st →
      sessionInvariant (runOps st l) := by
    intro l
    induction l with
    | nil => intro st h; exact h
    | cons op rest ih =>
        intro st h
        exact ih (applyOp st op) (applyOp_sessionInvariant st op h)
  refine hstep ops initState ?_
  intro r hr
  simp [initState] at hr

/-- Closed instance of `ended_at_iff_completed` after a start/finalize
run. -/
theorem ended_at_iff_completed_witness :
    sessionInvariant (runOps initState
      [Op.start (str "s") false, Op.finalize (str "s") c7req]) :=
  ended_at_iff_completed [Op.start (str "s") false, Op.finalize (str "s") c7req]

/-- C9 counterexample: after one started session, querying the log list
with a supplied — but empty — session identifier returns the entry of
session `"s"`, not only entries of session `""`: Python's truthiness
guard `if session_uuid:` treats the empty-string filter as absent. -/
theorem fetch_logs_empty_filter_counterexample :
    (fetch_logs (runOps initState [Op.start (str "s") false]) (some [])).map
        LogRow.session_uuid = [str "s"] ∧
    str "s" ≠ ([] : Str) := by
  constructor
  · rfl
  · decide

/-- C9 (amended): log queries return entries sorted by `created_at` in
non-decreasing order; a supplied non-empty session identifier restricts
the result to that session's entries (an empty-string filter is treated
as absent); and with no filter every entry is returned in creation
order. -/
theorem fetch_logs_spec (ops : List Op) (sid : Str) (hsid : sid ≠ []) :
    (∀ q : Option Str, (fetch_logs (runOps initState ops) q).Sorted logLe) ∧
    (∀ r ∈ fetch_logs (runOps initState ops) (some sid), r.session_uuid = sid) ∧
    fetch_logs (runOps initState ops) none = (runOps initState ops).logs := by
  have hfresh : freshLogs (runOps initState ops).logs (runOps initState ops).clock := by
    refine runOps_freshLogs ops initState ⟨List.Pairwise.nil, ?_⟩
    intro r hr
    simp [initState] at hr
  refine ⟨?_, ?_, ?_⟩
  · intro q
    exact List.sorted_insertionSort logLe _
  · intro r hr
    have hne : sid.isEmpty = false := by
      simpa [List.isEmpty_iff] using hsid
    simp only [fetch_logs, hne, Bool.false_eq_true, if_false] at hr
    have hmem : r ∈ (runOps initState ops).logs.filter fun q => q.session_uuid == sid :=
      (List.Perm.mem_iff (List.perm_insertionSort logLe _)).mp hr
    exact eq_of_beq ((List.mem_filter.mp hmem).2)
  · show ((runOps initState ops).logs).insertionSort logLe = (runOps initState ops).logs
    exact List.Sorted.insertionSort_eq
      (List.Pairwise.imp (fun h => Nat.le_of_lt h) hfresh.1)

/-- Closed instance of `fetch_logs_spec` on the fresh database. -/
theorem fetch_logs_spec_witness :
    fetch_logs (runOps initState []) none = (runOps initState []).logs :=
  (fetch_logs_spec [] (str "s") (by decide)).2.2

/-- A finalize request that was explicitly not confirmed. -/
def c10req : FinalizeRequest :=
  FinalizeRequest.ofWire (str "민원") (str "민원") (str "OTHER") (str "NORMAL")
    (str "INFO_GUIDE") none (some false)

/-- C10: finalize unconditionally appends exactly one complaint row
carrying the request's `is_confirmed` value — `false` included — and
marks every matching session row `COMPLETED` with `ended_at` overwritten
to the current time, returning success; and an omitted `is_confirmed`
defaults to `true` at request parsing.  No prior confirm step is
consulted. -/
theorem finalize_always_persists (st : DbState) (sid : Str) (req : FinalizeRequest) :
    (finalize_conversation st sid req).1.complaints =
      st.complaints ++
        [{ session_uuid := sid
           raw_text := req.raw_text
           summary_text := req.summary_text
           category := req.category
           severity := req.severity
           handling_type := req.handling_type
           handling_desc := req.handling_desc
           is_confirmed := req.is_confirmed
           created_at := st.clock }] ∧
    (∀ r ∈ (finalize_conversation st sid req).1.sessions,
      r.session_uuid = sid →
        r.status = str "COMPLETED" ∧ r.ended_at = some (st.clock + 1)) ∧
    (finalize_conversation st sid req).2.success = true ∧
    (∀ rt su ca se ht hd,
      (FinalizeRequest.ofWire rt su ca se ht hd none).is_confirmed = true) := by
  refine ⟨rfl, ?_, rfl, fun _ _ _ _ _ _ => rfl⟩
  intro r hr hru
  simp only [finalize_conversation, insert_log, update_session_status,
    insert_complaint, List.mem_map] at hr
  rcases hr with ⟨q, hq, rfl⟩
  by_cases hqu : q.session_uuid = sid
  · simp [hqu]
  · rw [if_neg hqu] at hru
    exact absurd hru hqu

/-- Closed instance of `finalize_always_persists` with
`is_confirmed = false`. -/
theorem finalize_always_persists_witness :
    (finalize_conversation initState (str "w") c10req).2.success = true :=
  (finalize_always_persists initState (str "w") c10req).2.2.1

end ElderBot
